import Mathlib

/-!
# dynamotest: a verification model of `helpers.go`

`helpers.go` holds two functions, `NewDynamoDB` and `PrepTable`.  Both are thin
sequencing code over external collaborators (the Docker daemon reached through
`dockertest`, and the DynamoDB SDK client).  The collaborators are not part of
the repository, so they are modelled as oracles: a collaborator answers every
request with a value that may depend on everything that was requested before.
The code of the repository is what is embedded: which requests it issues, in
which order, with which arguments, and how it reacts to the answers.

Conventions of the embedding:

* a Go pointer `*T` is `Option T` (`none` is `nil`);
* a Go `error` is `Option GoError` (`none` is `nil`); a Go `(v, err)` result is
  `Except GoError V`;
* a Go `map` literal is an association list;
* `t.Fatalf` records its message and stops the calling function (this is what
  `testing.T` and `testing.B` do through `FailNow`); `t.Helper` has no effect
  on behaviour;
* dereferencing `nil` stops the function with a run-time panic.
-/

namespace Dynamotest

/-! ## Go runtime and `testing.TB` -/

/-- Non-nil Go `error`; `Error` is what `err.Error()` returns, which is also
what the verbs `%s` and `%v` print. -/
structure GoError where
  Error : String
deriving DecidableEq, Repr

/-- How a call of a Go function ends. -/
inductive Exit (α : Type) where
  | returned (v : α)
  | fatal (msg : String)
  | nilDeref

/-- Observable state of the test handle `t testing.TB`. -/
structure TB where
  logs : List String
  failed : Bool
deriving DecidableEq, Repr

/-- Method `t.Logf` with the format already applied. -/
def TB.Logf (t : TB) (msg : String) : TB :=
  { t with logs := t.logs ++ [msg] }

/-- Method `t.Fatalf` with the format already applied: `Logf` followed by
`FailNow`; the caller stops with `Exit.fatal msg`. -/
def TB.Fatalf (t : TB) (msg : String) : TB :=
  { logs := t.logs ++ [msg], failed := true }

/-! ## DynamoDB SDK request types (the fields the repository touches) -/

/-- SDK type `types.AttributeValue` (a tagged union; the members used here). -/
inductive AttributeValue where
  | S (Value : String)
  | N (Value : String)
  | BOOL (Value : Bool)
  | NULL
deriving DecidableEq, Repr

/-- SDK type `types.PutRequest`. -/
structure PutRequest where
  Item : List (String × AttributeValue)
deriving DecidableEq, Repr

/-- SDK type `types.DeleteRequest`. -/
structure DeleteRequest where
  Key : List (String × AttributeValue)
deriving DecidableEq, Repr

/-- SDK type `types.WriteRequest`: two pointer fields. -/
structure WriteRequest where
  DeleteRequest : Option DeleteRequest
  PutRequest : Option PutRequest
deriving DecidableEq, Repr

/-- SDK type `types.AttributeDefinition`. -/
structure AttributeDefinition where
  AttributeName : Option String
  AttributeType : String
deriving DecidableEq, Repr

/-- SDK type `types.KeySchemaElement`. -/
structure KeySchemaElement where
  AttributeName : Option String
  KeyType : String
deriving DecidableEq, Repr

/-- SDK type `dynamodb.CreateTableInput`; `TableName` is a `*string`. -/
structure CreateTableInput where
  AttributeDefinitions : List AttributeDefinition
  KeySchema : List KeySchemaElement
  TableName : Option String
  BillingMode : String
deriving DecidableEq, Repr

/-- SDK type `dynamodb.BatchWriteItemInput`; fields left out of a Go composite
literal hold their zero value. -/
structure BatchWriteItemInput where
  RequestItems : List (String × List WriteRequest)
  ReturnConsumedCapacity : String
  ReturnItemCollectionMetrics : String
deriving DecidableEq, Repr

/-- SDK type `dynamodb.CreateTableOutput`. -/
structure CreateTableOutput where
  TableDescription : Option String
deriving DecidableEq, Repr

/-- SDK type `dynamodb.BatchWriteItemOutput`. -/
structure BatchWriteItemOutput where
  UnprocessedItems : List (String × List WriteRequest)
deriving DecidableEq, Repr

/-- SDK type `dynamodb.Options`, the per-client settings a per-call option
function may change. -/
structure Options where
  AppID : String
  BaseEndpoint : Option String
  Region : String
  RetryMaxAttempts : Int
  RetryMode : String
deriving DecidableEq, Repr

/-- One request sent through a `*dynamodb.Client`, with its arguments.  A Go
`func(*Options)` is a function `Options → Options`. -/
inductive Call where
  | CreateTable (params : Option CreateTableInput) (optFns : List (Options → Options))
  | BatchWriteItem (params : Option BatchWriteItemInput) (optFns : List (Options → Options))

/-- A connected `*dynamodb.Client` (non-nil receiver).  `sent` is every request
sent through it so far; the two oracles give the service's answer to a request
from the requests sent before it and the request's arguments. -/
structure Client where
  sent : List Call
  createTable : List Call → Option CreateTableInput → List (Options → Options) →
    Except GoError CreateTableOutput
  batchWriteItem : List Call → Option BatchWriteItemInput → List (Options → Options) →
    Except GoError BatchWriteItemOutput

/-- Method `client.CreateTable(ctx, params, optFns...)`. -/
def Client.CreateTable (c : Client) (params : Option CreateTableInput)
    (optFns : List (Options → Options)) : Client × Except GoError CreateTableOutput :=
  ({ c with sent := c.sent ++ [Call.CreateTable params optFns] },
    c.createTable c.sent params optFns)

/-- Method `client.BatchWriteItem(ctx, params, optFns...)`. -/
def Client.BatchWriteItem (c : Client) (params : Option BatchWriteItemInput)
    (optFns : List (Options → Options)) : Client × Except GoError BatchWriteItemOutput :=
  ({ c with sent := c.sent ++ [Call.BatchWriteItem params optFns] },
    c.batchWriteItem c.sent params optFns)

/-! ## `PrepTable` -/

/-- Type `InitialTableSetup` of `helpers.go`. -/
structure InitialTableSetup where
  Table : Option CreateTableInput
  InitialData : List (Option PutRequest)
deriving DecidableEq, Repr

/-- State of a call of `PrepTable`: the test handle, the client, and how the
call ended. -/
structure PrepRun where
  t : TB
  client : Client
  exit : Exit Unit

/-- The closure `opt := func(o *dynamodb.Options) { o.RetryMaxAttempts = 10 }`. -/
def PrepTable.opt (o : Options) : Options :=
  { o with RetryMaxAttempts := 10 }

/-- The inner loop of `PrepTable`:
`puts := []types.WriteRequest{}` followed by
`for _, d := range i.InitialData { puts = append(puts, types.WriteRequest{PutRequest: d}) }`. -/
def PrepTable.puts (initialData : List (Option PutRequest)) : List WriteRequest :=
  initialData.foldl
    (fun puts d => puts ++ [{ DeleteRequest := none, PutRequest := d }]) []

/-- The expression `*i.Table.TableName`: `none` is the nil-pointer panic. -/
def InitialTableSetup.derefTableName (i : InitialTableSetup) : Option String :=
  match i.Table with
  | none => none
  | some table => table.TableName

/-- One iteration of the outer loop of `PrepTable` (lines 90 to 108). -/
def PrepTable.body (t : TB) (client : Client) (i : InitialTableSetup) : PrepRun :=
  match client.CreateTable i.Table [PrepTable.opt] with
  | (client, Except.error err) =>
    match i.derefTableName with
    | none => { t := t, client := client, exit := Exit.nilDeref }
    | some name =>
      let msg := "Could not create table '" ++ name ++ "': " ++ err.Error
      { t := t.Fatalf msg, client := client, exit := Exit.fatal msg }
  | (client, Except.ok _) =>
    let puts := PrepTable.puts i.InitialData
    match i.derefTableName with
    | none => { t := t, client := client, exit := Exit.nilDeref }
    | some name =>
      match client.BatchWriteItem
          (some { RequestItems := [(name, puts)], ReturnConsumedCapacity := "",
                  ReturnItemCollectionMetrics := "" }) [] with
      | (client, Except.error err) =>
        match i.derefTableName with
        | none => { t := t, client := client, exit := Exit.nilDeref }
        | some name =>
          let msg := "Could not write data to table '" ++ name ++ "': " ++ err.Error
          { t := t.Fatalf msg, client := client, exit := Exit.fatal msg }
      | (client, Except.ok _) =>
        match i.derefTableName with
        | none => { t := t, client := client, exit := Exit.nilDeref }
        | some name =>
          { t := t.Logf ("Table '" ++ name ++ "' has been created"), client := client,
            exit := Exit.returned () }

/-- The outer loop `for _, i := range input`: the next descriptor is processed
only when the iteration before it ran to its end. -/
def PrepTable.loop (t : TB) (client : Client) : List InitialTableSetup → PrepRun
  | [] => { t := t, client := client, exit := Exit.returned () }
  | i :: rest =>
    match PrepTable.body t client i with
    | { t := t1, client := client1, exit := Exit.returned () } =>
      PrepTable.loop t1 client1 rest
    | stopped => stopped

/-- Function `PrepTable(t, client, input...)`. -/
def PrepTable (t : TB) (client : Client) (input : List InitialTableSetup) : PrepRun :=
  PrepTable.loop t client input

/-! ## `NewDynamoDB` -/

/-- The `*dockertest.Pool` handle returned by `dockertest.NewPool`. -/
structure Pool where
  Client : String
deriving DecidableEq, Repr

/-- The `*dockertest.Resource` handle of a started container. -/
structure Resource where
  Container : String
deriving DecidableEq, Repr

/-- Docker type `docker.PortBinding`. -/
structure PortBinding where
  HostIP : String
  HostPort : String
deriving DecidableEq, Repr

/-- Type `dockertest.RunOptions` (the fields `NewDynamoDB` sets). -/
structure RunOptions where
  Repository : String
  Tag : String
  PortBindings : List (String × List PortBinding)
deriving DecidableEq, Repr

/-- SDK type `aws.Endpoint`. -/
structure Endpoint where
  URL : String
deriving DecidableEq, Repr

/-- SDK type `aws.Credentials`. -/
structure Credentials where
  AccessKeyID : String
  SecretAccessKey : String
  SessionToken : String
  Source : String
deriving DecidableEq, Repr

/-- The functional options `NewDynamoDB` passes to `config.LoadDefaultConfig`.
An endpoint resolver takes the service and the region. -/
inductive LoadOption where
  | WithRegion (v : String)
  | WithEndpointResolverWithOptions (fn : String → String → Except GoError Endpoint)
  | WithCredentialsProvider (Value : Credentials)

/-- SDK type `aws.Config`, as far as the options above fill it. -/
structure Config where
  Region : String
  EndpointResolverWithOptions : Option (String → String → Except GoError Endpoint)
  Credentials : Option Credentials

/-- A request `NewDynamoDB` or its cleanup closure makes to a collaborator. -/
inductive Event where
  | NewPool (endpoint : String)
  | RunWithOptions (pool : Pool) (opts : RunOptions)
  | LoadDefaultConfig
  | NewFromConfig
  | Purge (pool : Pool) (r : Resource)
deriving DecidableEq, Repr

/-- The collaborators of `NewDynamoDB`.  Every oracle that reaches outside the
process answers from the requests made before (`List Event`) and its arguments.
`dynamoDBLocalRepo` and `dynamoDBLocalTag` are package constants declared
outside `helpers.go`.  `retryBudget` is how many further attempts the back-off
of `pool.Retry` allows after the first one before its deadline. -/
structure World where
  dynamoDBLocalRepo : String
  dynamoDBLocalTag : String
  NewPool : List Event → String → Except GoError Pool
  RunWithOptions : List Event → Pool → RunOptions → Except GoError Resource
  GetHostPort : Resource → String → String
  retryBudget : Nat
  LoadDefaultConfig : List Event → List LoadOption → Except GoError Config
  NewFromConfig : Config → Client
  Purge : List Event → Pool → Resource → Option GoError

/-- Variables the closure handed to `pool.Retry` reads and writes: the requests
made so far and the captured variable `dynamoClient`. -/
structure PollState where
  events : List Event
  dynamoClient : Option Client

/-- The options of the `config.LoadDefaultConfig` call (lines 45 to 57); the
resolver closure captures `resource`. -/
def NewDynamoDB.loadOptions (w : World) (resource : Resource) : List LoadOption :=
  [ LoadOption.WithRegion "us-east-1",
    LoadOption.WithEndpointResolverWithOptions
      (fun _ _ => Except.ok { URL := "http://" ++ w.GetHostPort resource "8000/tcp" }),
    LoadOption.WithCredentialsProvider
      { AccessKeyID := "dummy", SecretAccessKey := "dummy", SessionToken := "dummy",
        Source := "Hard-coded credentials; values are irrelevant for local DynamoDB" } ]

/-- The closure handed to `pool.Retry` (lines 43 to 65). -/
def NewDynamoDB.op (w : World) (resource : Resource) (s : PollState) :
    PollState × Option GoError :=
  match w.LoadDefaultConfig s.events (NewDynamoDB.loadOptions w resource) with
  | Except.error err =>
    ({ s with events := s.events ++ [Event.LoadDefaultConfig] }, some err)
  | Except.ok cfg =>
    ({ events := s.events ++ [Event.LoadDefaultConfig, Event.NewFromConfig],
       dynamoClient := some (w.NewFromConfig cfg) }, none)

/-- Method `pool.Retry(op)` of `dockertest`: run `op`; when it returns an error
and the deadline is not reached, wait and run it again; give up with the last
error at the deadline.  Time is abstracted to `budget`, the number of further
attempts that fit before the deadline. -/
def Pool.Retry (op : PollState → PollState × Option GoError) :
    Nat → PollState → PollState × Option GoError
  | 0, s => op s
  | budget + 1, s =>
    match op s with
    | (s1, none) => (s1, none)
    | (s1, some _) => Pool.Retry op budget s1

/-- The cleanup closure returned by `NewDynamoDB`, as the variables it captures. -/
structure Cleanup where
  pool : Pool
  resource : Resource
deriving DecidableEq, Repr

/-- State of a call of `NewDynamoDB`. -/
structure NewRun where
  t : TB
  events : List Event
  exit : Exit (Option Client × Cleanup)

/-- State of a call of the cleanup closure. -/
structure CleanupRun where
  t : TB
  events : List Event
  exit : Exit Unit

/-- The composite literal `runOpt` (lines 28 to 35). -/
def NewDynamoDB.runOpt (w : World) : RunOptions :=
  { Repository := w.dynamoDBLocalRepo
    Tag := w.dynamoDBLocalTag
    PortBindings := [("0/tcp", [{ HostIP := "localhost", HostPort := "8000/tcp" }])] }

/-- Function `NewDynamoDB(t)`, started after the requests `events`. -/
def NewDynamoDB (w : World) (t : TB) (events : List Event) : NewRun :=
  match w.NewPool events "" with
  | Except.error err =>
    let msg := "Could not connect to docker: " ++ err.Error
    { t := t.Fatalf msg, events := events ++ [Event.NewPool ""], exit := Exit.fatal msg }
  | Except.ok pool =>
    let events := events ++ [Event.NewPool ""]
    let runOpt := NewDynamoDB.runOpt w
    match w.RunWithOptions events pool runOpt with
    | Except.error err =>
      let msg := "Could not start DynamoDB Local: " ++ err.Error
      { t := t.Fatalf msg, events := events ++ [Event.RunWithOptions pool runOpt],
        exit := Exit.fatal msg }
    | Except.ok resource =>
      let events := events ++ [Event.RunWithOptions pool runOpt]
      let t := t.Logf ("Using host:port of '" ++ w.GetHostPort resource "8000/tcp" ++ "'")
      match Pool.Retry (NewDynamoDB.op w resource) w.retryBudget
          { events := events, dynamoClient := none } with
      | (s, some err) =>
        let msg :=
          "Could not connect to the Docker instance of DynamoDB Local: " ++ err.Error
        { t := t.Fatalf msg, events := s.events, exit := Exit.fatal msg }
      | (s, none) =>
        { t := t, events := s.events,
          exit := Exit.returned (s.dynamoClient, { pool := pool, resource := resource }) }

/-- A call of the cleanup closure (lines 69 to 73), after the requests `events`. -/
def Cleanup.call (w : World) (c : Cleanup) (t : TB) (events : List Event) : CleanupRun :=
  match w.Purge events c.pool c.resource with
  | some err =>
    let msg := "Could not purge DynamoDB: " ++ err.Error
    { t := t.Fatalf msg, events := events ++ [Event.Purge c.pool c.resource],
      exit := Exit.fatal msg }
  | none =>
    { t := t, events := events ++ [Event.Purge c.pool c.resource],
      exit := Exit.returned () }

/-! ## Vocabulary of the specification -/

/-- The text `sub` occurs in the text `s`. -/
def Spec.Contains (s sub : String) : Prop :=
  sub.data <:+: s.data

/-- A write request that wraps `row` as its put request and deletes nothing. -/
def Spec.wrap (row : Option PutRequest) : WriteRequest :=
  { DeleteRequest := none, PutRequest := row }

/-- The batched write the specification prescribes for a table named `name`
with the seed rows `rows`: one key, the table name, mapped to the rows wrapped
one by one in their order. -/
def Spec.batchWriteOf (name : String) (rows : List (Option PutRequest)) :
    BatchWriteItemInput :=
  { RequestItems := [(name, rows.map Spec.wrap)], ReturnConsumedCapacity := "",
    ReturnItemCollectionMetrics := "" }

/-- The create-table request for the descriptor `d`. -/
def Spec.createCall (d : InitialTableSetup) : Call :=
  Call.CreateTable d.Table [PrepTable.opt]

/-- The batch-write request for the descriptor `d` whose table is named `name`. -/
def Spec.writeCall (name : String) (d : InitialTableSetup) : Call :=
  Call.BatchWriteItem (some (Spec.batchWriteOf name d.InitialData)) []

/-- The request sequence the specification prescribes for descriptors that all
succeed: create then write for the first, create then write for the second,
and so on in the caller's order. -/
def Spec.calls : List InitialTableSetup → List Call
  | [] => []
  | d :: rest =>
    Spec.createCall d :: Spec.writeCall (d.derefTableName.getD "") d :: Spec.calls rest

/-- Every descriptor has a non-nil `Table` whose `TableName` is non-nil. -/
def Spec.Named (input : List InitialTableSetup) : Prop :=
  ∀ d ∈ input, d.derefTableName.isSome = true

/-- Every request through the client succeeds, whatever was sent before. -/
def Spec.AlwaysSucceeds (client : Client) : Prop :=
  (∀ sent params optFns, ∃ out, client.createTable sent params optFns = Except.ok out) ∧
  (∀ sent params optFns, ∃ out, client.batchWriteItem sent params optFns = Except.ok out)

/-- What the specification says of the per-call options of a request: a
create-table request carries exactly one, which sets the maximum retry attempts
to 10 and changes nothing else; a batch-write request carries none. -/
def Spec.OptionsAsSpecified : Call → Prop
  | Call.CreateTable _ optFns =>
    ∃ f, optFns = [f] ∧ ∀ o : Options,
      (f o).RetryMaxAttempts = 10 ∧ (f o).AppID = o.AppID ∧
      (f o).BaseEndpoint = o.BaseEndpoint ∧ (f o).Region = o.Region ∧
      (f o).RetryMode = o.RetryMode
  | Call.BatchWriteItem _ optFns => optFns = []

/-- The history at the start of poll attempt number `j` (counted from 0) when
polling starts after `base` and every earlier attempt failed. -/
def Spec.pollHistory (base : List Event) (j : Nat) : List Event :=
  base ++ List.replicate j Event.LoadDefaultConfig

/-- The requests are no purge requests. -/
def Spec.NoPurge (events : List Event) : Prop :=
  ∀ pool r, Event.Purge pool r ∉ events

/-- Connecting to the container daemon fails. -/
def Spec.ConnectFails (w : World) (events : List Event) : Prop :=
  ∃ err, w.NewPool events "" = Except.error err

/-- The daemon is connected and starting the container fails. -/
def Spec.StartFails (w : World) (events : List Event) : Prop :=
  ∃ pool err, w.NewPool events "" = Except.ok pool ∧
    w.RunWithOptions (events ++ [Event.NewPool ""]) pool (NewDynamoDB.runOpt w) =
      Except.error err

/-- The container is started and the polling fails: every attempt the retry
budget allows fails. -/
def Spec.PollFails (w : World) (events : List Event) : Prop :=
  ∃ pool resource, w.NewPool events "" = Except.ok pool ∧
    w.RunWithOptions (events ++ [Event.NewPool ""]) pool (NewDynamoDB.runOpt w) =
      Except.ok resource ∧
    ∀ j, j ≤ w.retryBudget → ∃ err,
      w.LoadDefaultConfig
        (Spec.pollHistory
          (events ++ [Event.NewPool "", Event.RunWithOptions pool (NewDynamoDB.runOpt w)]) j)
        (NewDynamoDB.loadOptions w resource) = Except.error err

/-- The container is started and poll attempt number `k` is the first to
succeed, with the configuration `cfg`. -/
def Spec.PollSucceedsAt (w : World) (events : List Event) (pool : Pool)
    (resource : Resource) (k : Nat) (cfg : Config) : Prop :=
  w.NewPool events "" = Except.ok pool ∧
  w.RunWithOptions (events ++ [Event.NewPool ""]) pool (NewDynamoDB.runOpt w) =
    Except.ok resource ∧
  k ≤ w.retryBudget ∧
  (∀ j, j < k → ∃ err,
    w.LoadDefaultConfig
      (Spec.pollHistory
        (events ++ [Event.NewPool "", Event.RunWithOptions pool (NewDynamoDB.runOpt w)]) j)
      (NewDynamoDB.loadOptions w resource) = Except.error err) ∧
  w.LoadDefaultConfig
    (Spec.pollHistory
      (events ++ [Event.NewPool "", Event.RunWithOptions pool (NewDynamoDB.runOpt w)]) k)
    (NewDynamoDB.loadOptions w resource) = Except.ok cfg

/-! ## Concrete inputs, taken from the tests of the repository -/

/-- A fresh test handle. -/
def Fixture.t0 : TB :=
  { logs := [], failed := false }

/-- The descriptor of `TestMinimalSetup`. -/
def Fixture.testTable : InitialTableSetup :=
  { Table := some
      { AttributeDefinitions := [{ AttributeName := some "test_PK", AttributeType := "S" }]
        KeySchema := [{ AttributeName := some "test_PK", KeyType := "HASH" }]
        TableName := some "test-table"
        BillingMode := "PAY_PER_REQUEST" }
    InitialData :=
      [some { Item := [("test_PK", AttributeValue.S "XYZ"), ("X", AttributeValue.S "Data for X")] }] }

/-- The descriptor of the case "sortable table" of `TestSimple`. -/
def Fixture.sortableTable : InitialTableSetup :=
  { Table := some
      { AttributeDefinitions :=
          [{ AttributeName := some "s_id", AttributeType := "S" },
           { AttributeName := some "date", AttributeType := "S" }]
        KeySchema :=
          [{ AttributeName := some "s_id", KeyType := "HASH" },
           { AttributeName := some "date", KeyType := "RANGE" }]
        TableName := some "sortable-table"
        BillingMode := "PAY_PER_REQUEST" }
    InitialData :=
      [some { Item := [("s_id", AttributeValue.S "111"), ("date", AttributeValue.S "2022-02-15")] },
       some { Item := [("s_id", AttributeValue.S "111"), ("date", AttributeValue.S "2022-02-16")] },
       some { Item := [("s_id", AttributeValue.S "111"), ("date", AttributeValue.S "2022-02-17")] }] }

/-- The descriptor of `TestMinimalSetupEmpty`: a table definition with no field
set, so `TableName` is nil, and no seed row. -/
def Fixture.emptySetup : InitialTableSetup :=
  { Table := some
      { AttributeDefinitions := [], KeySchema := [], TableName := none, BillingMode := "" }
    InitialData := [] }

/-- A client on which every request succeeds. -/
def Fixture.okClient : Client :=
  { sent := []
    createTable := fun _ _ _ => Except.ok { TableDescription := none }
    batchWriteItem := fun _ _ _ => Except.ok { UnprocessedItems := [] } }

/-- A client that refuses a create-table request without a table name, as the
validation step of the SDK does, and accepts everything else. -/
def Fixture.validatingClient : Client :=
  { sent := []
    createTable := fun _ params _ =>
      match params with
      | some { TableName := some _, .. } => Except.ok { TableDescription := none }
      | _ => Except.error { Error := "validation error: missing required field TableName" }
    batchWriteItem := fun _ _ _ => Except.ok { UnprocessedItems := [] } }

/-- A client whose service accepts two requests and is unreachable afterwards. -/
def Fixture.flakyClient : Client :=
  { sent := []
    createTable := fun sent _ _ =>
      if sent.length < 2 then Except.ok { TableDescription := none }
      else Except.error { Error := "connection refused" }
    batchWriteItem := fun sent _ _ =>
      if sent.length < 2 then Except.ok { UnprocessedItems := [] }
      else Except.error { Error := "connection refused" } }

/-- A client whose endpoint accepts no connection: every request fails. -/
def Fixture.refusedClient : Client :=
  { sent := []
    createTable := fun _ _ _ => Except.error { Error := "connection refused" }
    batchWriteItem := fun _ _ _ => Except.error { Error := "connection refused" } }

/-- An environment in which the daemon starts the container and the SDK loads
its configuration, while the emulator behind the endpoint accepts no connection:
every request through a client built from the configuration is refused. -/
def Fixture.notListening : World :=
  { dynamoDBLocalRepo := "amazon/dynamodb-local"
    dynamoDBLocalTag := "latest"
    NewPool := fun _ _ => Except.ok { Client := "unix:///var/run/docker.sock" }
    RunWithOptions := fun _ _ _ => Except.ok { Container := "c0" }
    GetHostPort := fun _ _ => "localhost:49153"
    retryBudget := 5
    LoadDefaultConfig := fun _ _ =>
      Except.ok { Region := "us-east-1", EndpointResolverWithOptions := none,
                  Credentials := none }
    NewFromConfig := fun _ => Fixture.refusedClient
    Purge := fun _ _ _ => none }

/-- An environment in which loading the configuration fails twice and then
succeeds, and the second purge of a container fails. -/
def Fixture.slowStart : World :=
  { dynamoDBLocalRepo := "amazon/dynamodb-local"
    dynamoDBLocalTag := "latest"
    NewPool := fun _ _ => Except.ok { Client := "unix:///var/run/docker.sock" }
    RunWithOptions := fun _ _ _ => Except.ok { Container := "c0" }
    GetHostPort := fun _ _ => "localhost:49153"
    retryBudget := 5
    LoadDefaultConfig := fun events _ =>
      if events.count Event.LoadDefaultConfig < 2 then
        Except.error { Error := "failed to load shared config" }
      else
        Except.ok { Region := "us-east-1", EndpointResolverWithOptions := none,
                    Credentials := none }
    NewFromConfig := fun _ => Fixture.okClient
    Purge := fun events pool r =>
      if Event.Purge pool r ∈ events then some { Error := "No such container" } else none }

/-! ## Lemmas on `PrepTable` -/

theorem puts_foldl (rows : List (Option PutRequest)) (acc : List WriteRequest) :
    rows.foldl (fun puts d => puts ++ [{ DeleteRequest := none, PutRequest := d }]) acc
      = acc ++ rows.map Spec.wrap := by
  induction rows generalizing acc with
  | nil => simp
  | cons d rest ih => simp [List.foldl, ih, Spec.wrap]

theorem puts_eq_map (rows : List (Option PutRequest)) :
    PrepTable.puts rows = rows.map Spec.wrap := by
  unfold PrepTable.puts
  rw [puts_foldl]
  simp

theorem body_create_error (t : TB) (c : Client) (i : InitialTableSetup) (name : String)
    (err : GoError) (hname : i.derefTableName = some name)
    (hct : c.createTable c.sent i.Table [PrepTable.opt] = Except.error err) :
    PrepTable.body t c i =
      { t := t.Fatalf ("Could not create table '" ++ name ++ "': " ++ err.Error)
        client := { c with sent := c.sent ++ [Spec.createCall i] }
        exit := Exit.fatal ("Could not create table '" ++ name ++ "': " ++ err.Error) } := by
  simp [PrepTable.body, Client.CreateTable, hct, hname, Spec.createCall]

theorem body_write_error (t : TB) (c : Client) (i : InitialTableSetup) (name : String)
    (out : CreateTableOutput) (err : GoError) (hname : i.derefTableName = some name)
    (hct : c.createTable c.sent i.Table [PrepTable.opt] = Except.ok out)
    (hbw : c.batchWriteItem (c.sent ++ [Spec.createCall i])
      (some (Spec.batchWriteOf name i.InitialData)) [] = Except.error err) :
    PrepTable.body t c i =
      { t := t.Fatalf ("Could not write data to table '" ++ name ++ "': " ++ err.Error)
        client := { c with sent := c.sent ++ [Spec.createCall i, Spec.writeCall name i] }
        exit := Exit.fatal ("Could not write data to table '" ++ name ++ "': " ++ err.Error) } := by
  simp only [Spec.createCall, Spec.batchWriteOf] at hbw
  simp [PrepTable.body, Client.CreateTable, Client.BatchWriteItem, hct, hname, hbw,
    Spec.createCall, Spec.writeCall, Spec.batchWriteOf, puts_eq_map]

theorem body_ok (t : TB) (c : Client) (i : InitialTableSetup) (name : String)
    (out : CreateTableOutput) (out2 : BatchWriteItemOutput)
    (hname : i.derefTableName = some name)
    (hct : c.createTable c.sent i.Table [PrepTable.opt] = Except.ok out)
    (hbw : c.batchWriteItem (c.sent ++ [Spec.createCall i])
      (some (Spec.batchWriteOf name i.InitialData)) [] = Except.ok out2) :
    PrepTable.body t c i =
      { t := t.Logf ("Table '" ++ name ++ "' has been created")
        client := { c with sent := c.sent ++ [Spec.createCall i, Spec.writeCall name i] }
        exit := Exit.returned () } := by
  simp only [Spec.createCall, Spec.batchWriteOf] at hbw
  simp [PrepTable.body, Client.CreateTable, Client.BatchWriteItem, hct, hname, hbw,
    Spec.createCall, Spec.writeCall, Spec.batchWriteOf, puts_eq_map]

theorem loop_cons_returned (t : TB) (c : Client) (i : InitialTableSetup)
    (rest : List InitialTableSetup) (h : (PrepTable.body t c i).exit = Exit.returned ()) :
    PrepTable.loop t c (i :: rest) =
      PrepTable.loop (PrepTable.body t c i).t (PrepTable.body t c i).client rest := by
  rw [PrepTable.loop]
  cases hb : PrepTable.body t c i with
  | mk t1 c1 e =>
    rw [hb] at h
    simp only at h
    subst h
    rfl

theorem loop_cons_stopped (t : TB) (c : Client) (i : InitialTableSetup)
    (rest : List InitialTableSetup) (h : (PrepTable.body t c i).exit ≠ Exit.returned ()) :
    PrepTable.loop t c (i :: rest) = PrepTable.body t c i := by
  rw [PrepTable.loop]
  cases hb : PrepTable.body t c i with
  | mk t1 c1 e =>
    rw [hb] at h
    cases e with
    | returned v => exact absurd rfl h
    | fatal msg => rfl
    | nilDeref => rfl

theorem loop_append_returned (t : TB) (c : Client) (pre post : List InitialTableSetup)
    (h : (PrepTable.loop t c pre).exit = Exit.returned ()) :
    PrepTable.loop t c (pre ++ post) =
      PrepTable.loop (PrepTable.loop t c pre).t (PrepTable.loop t c pre).client post := by
  induction pre generalizing t c with
  | nil => simp [PrepTable.loop]
  | cons i rest ih =>
    by_cases hb : (PrepTable.body t c i).exit = Exit.returned ()
    · rw [List.cons_append, loop_cons_returned t c i _ hb, loop_cons_returned t c i _ hb]
      rw [loop_cons_returned t c i _ hb] at h
      exact ih _ _ h
    · rw [loop_cons_stopped t c i _ hb] at h
      exact absurd h hb

theorem loop_append_stopped (t : TB) (c : Client) (pre post : List InitialTableSetup)
    (h : (PrepTable.loop t c pre).exit ≠ Exit.returned ()) :
    PrepTable.loop t c (pre ++ post) = PrepTable.loop t c pre := by
  induction pre generalizing t c with
  | nil => exact absurd rfl h
  | cons i rest ih =>
    by_cases hb : (PrepTable.body t c i).exit = Exit.returned ()
    · rw [List.cons_append, loop_cons_returned t c i _ hb, loop_cons_returned t c i _ hb]
      rw [loop_cons_returned t c i _ hb] at h
      exact ih _ _ h
    · rw [List.cons_append, loop_cons_stopped t c i _ hb, loop_cons_stopped t c i _ hb]

theorem contains_second (a b c d : String) : Spec.Contains (a ++ b ++ c ++ d) b := by
  unfold Spec.Contains
  exact ⟨a.data, c.data ++ d.data, by simp⟩

theorem contains_end (a b : String) : Spec.Contains (a ++ b) b := by
  unfold Spec.Contains
  exact ⟨a.data, [], by simp⟩

theorem loop_all_succeed (t : TB) (c : Client) (input : List InitialTableSetup)
    (hnamed : Spec.Named input) (hok : Spec.AlwaysSucceeds c) :
    (PrepTable.loop t c input).exit = Exit.returned () ∧
    (PrepTable.loop t c input).t.failed = t.failed ∧
    (PrepTable.loop t c input).client = { c with sent := c.sent ++ Spec.calls input } := by
  induction input generalizing t c with
  | nil => simp [PrepTable.loop, Spec.calls]
  | cons i rest ih =>
    have hi : i.derefTableName.isSome = true := hnamed i (List.mem_cons_self i rest)
    obtain ⟨name, hname⟩ := Option.isSome_iff_exists.mp hi
    obtain ⟨out, hct⟩ := hok.1 c.sent i.Table [PrepTable.opt]
    obtain ⟨out2, hbw⟩ := hok.2 (c.sent ++ [Spec.createCall i])
      (some (Spec.batchWriteOf name i.InitialData)) []
    have hb := body_ok t c i name out out2 hname hct hbw
    have hret : (PrepTable.body t c i).exit = Exit.returned () := by rw [hb]
    rw [loop_cons_returned t c i rest hret, hb]
    have hrest : Spec.Named rest := fun d hd => hnamed d (List.mem_cons_of_mem i hd)
    have := ih (t.Logf ("Table '" ++ name ++ "' has been created"))
      { c with sent := c.sent ++ [Spec.createCall i, Spec.writeCall name i] } hrest hok
    refine ⟨this.1, ?_, ?_⟩
    · rw [this.2.1]
      rfl
    · rw [this.2.2]
      simp [Spec.calls, hname]

theorem calls_length (input : List InitialTableSetup) :
    (Spec.calls input).length = 2 * input.length := by
  induction input with
  | nil => rfl
  | cons d rest ih => simp [Spec.calls, ih]; omega

theorem createCall_options (d : InitialTableSetup) :
    Spec.OptionsAsSpecified (Spec.createCall d) :=
  ⟨PrepTable.opt, rfl, fun _ => ⟨rfl, rfl, rfl, rfl, rfl⟩⟩

theorem body_issued (t : TB) (c : Client) (i : InitialTableSetup) :
    ∃ issued, (PrepTable.body t c i).client.sent = c.sent ++ issued ∧
      ∀ call ∈ issued, Spec.OptionsAsSpecified call := by
  cases hname : i.derefTableName with
  | none =>
    refine ⟨[Spec.createCall i], ?_, ?_⟩
    · cases hct : c.createTable c.sent i.Table [PrepTable.opt] <;>
        simp [PrepTable.body, Client.CreateTable, hct, hname, Spec.createCall]
    · intro call hcall
      rw [List.mem_singleton] at hcall
      subst hcall
      exact createCall_options i
  | some name =>
    cases hct : c.createTable c.sent i.Table [PrepTable.opt] with
    | error err =>
      refine ⟨[Spec.createCall i], ?_, ?_⟩
      · rw [body_create_error t c i name err hname hct]
      · intro call hcall
        rw [List.mem_singleton] at hcall
        subst hcall
        exact createCall_options i
    | ok out =>
      refine ⟨[Spec.createCall i, Spec.writeCall name i], ?_, ?_⟩
      · cases hbw : c.batchWriteItem (c.sent ++ [Spec.createCall i])
            (some (Spec.batchWriteOf name i.InitialData)) [] with
        | error err => rw [body_write_error t c i name out err hname hct hbw]
        | ok out2 => rw [body_ok t c i name out out2 hname hct hbw]
      · intro call hcall
        simp only [List.mem_cons, List.mem_singleton, List.not_mem_nil, or_false] at hcall
        rcases hcall with h | h
        · subst h
          exact createCall_options i
        · subst h
          rfl

theorem body_named_exit (t : TB) (c : Client) (i : InitialTableSetup) (name : String)
    (hname : i.derefTableName = some name) :
    (PrepTable.body t c i).exit = Exit.returned () ∨
      ∃ msg, (PrepTable.body t c i).exit = Exit.fatal msg ∧
        (PrepTable.body t c i).t.failed = true := by
  cases hct : c.createTable c.sent i.Table [PrepTable.opt] with
  | error err =>
    right
    rw [body_create_error t c i name err hname hct]
    exact ⟨_, rfl, rfl⟩
  | ok out =>
    cases hbw : c.batchWriteItem (c.sent ++ [Spec.createCall i])
        (some (Spec.batchWriteOf name i.InitialData)) [] with
    | error err =>
      right
      rw [body_write_error t c i name out err hname hct hbw]
      exact ⟨_, rfl, rfl⟩
    | ok out2 =>
      left
      rw [body_ok t c i name out out2 hname hct hbw]

/-! ## The claims on `PrepTable` -/

/-- C1: for descriptors that all have a non-nil `Table` and `TableName`, and a
client on which every request succeeds, `PrepTable` returns without failing the
test, and the requests it sends are exactly create-table then batch-write for
the first descriptor, then for the second, and so on in the caller's order:
`2 * n` requests for `n` descriptors, none for an empty list. -/
theorem PrepTable_sends_create_then_write_in_order (t : TB) (client : Client)
    (input : List InitialTableSetup) (hnamed : Spec.Named input)
    (hok : Spec.AlwaysSucceeds client) :
    (PrepTable t client input).exit = Exit.returned () ∧
    (PrepTable t client input).t.failed = t.failed ∧
    (PrepTable t client input).client.sent = client.sent ++ Spec.calls input ∧
    (Spec.calls input).length = 2 * input.length ∧
    (input = [] → (PrepTable t client input).client.sent = client.sent) := by
  have h := loop_all_succeed t client input hnamed hok
  refine ⟨h.1, h.2.1, ?_, calls_length input, ?_⟩
  · unfold PrepTable
    rw [h.2.2]
  · intro hnil
    subst hnil
    rfl

/-- Witness of C1: the descriptors of `TestMinimalSetup` and `TestSimple` on a
client that accepts everything give four requests in the prescribed order. -/
theorem PrepTable_sends_create_then_write_in_order_witness :
    Spec.Named [Fixture.testTable, Fixture.sortableTable] ∧
    Spec.AlwaysSucceeds Fixture.okClient ∧
    (PrepTable Fixture.t0 Fixture.okClient
        [Fixture.testTable, Fixture.sortableTable]).client.sent =
      [Spec.createCall Fixture.testTable,
       Spec.writeCall "test-table" Fixture.testTable,
       Spec.createCall Fixture.sortableTable,
       Spec.writeCall "sortable-table" Fixture.sortableTable] :=
  ⟨by intro d hd; simp at hd; rcases hd with h | h <;> subst h <;> rfl,
   ⟨fun _ _ _ => ⟨_, rfl⟩, fun _ _ _ => ⟨_, rfl⟩⟩,
   (PrepTable_sends_create_then_write_in_order Fixture.t0 Fixture.okClient
      [Fixture.testTable, Fixture.sortableTable]
      (by intro d hd; simp at hd; rcases hd with h | h <;> subst h <;> rfl)
      ⟨fun _ _ _ => ⟨_, rfl⟩, fun _ _ _ => ⟨_, rfl⟩⟩).2.2.1⟩

/-- C2, the behaviour of the code: the descriptor of `TestMinimalSetupEmpty` has
no table name and its create-table request is refused for it.  `PrepTable` then
evaluates `*i.Table.TableName` as an argument of `t.Fatalf` and stops with a
nil-pointer panic: `t.Fatalf` is never called, the test handle is not marked
failed, and the error of the request is never reported. -/
theorem PrepTable_error_without_table_name_panics :
    (∃ err, Fixture.validatingClient.createTable Fixture.validatingClient.sent
        Fixture.emptySetup.Table [PrepTable.opt] = Except.error err) ∧
    (PrepTable Fixture.t0 Fixture.validatingClient [Fixture.emptySetup]).exit =
      Exit.nilDeref ∧
    (¬ ∃ msg, (PrepTable Fixture.t0 Fixture.validatingClient [Fixture.emptySetup]).exit =
      Exit.fatal msg) ∧
    (PrepTable Fixture.t0 Fixture.validatingClient [Fixture.emptySetup]).t.failed = false := by
  have hexit : (PrepTable Fixture.t0 Fixture.validatingClient [Fixture.emptySetup]).exit =
      Exit.nilDeref := rfl
  refine ⟨⟨_, rfl⟩, hexit, ?_, rfl⟩
  rintro ⟨msg, hmsg⟩
  rw [hexit] at hmsg
  cases hmsg

/-- The error path for a descriptor that has a table name: when the descriptors
before `d` were processed to the end, `d` has a non-nil `Table` and
`TableName`, and the create-table request or the
batch-write request of `d` returns the error `err`, then `PrepTable` fails the
test fatally with a message that contains the table name of `d` and the text of
`err`, and sends nothing more: after a failed create-table the last request is
that create-table, after a failed batch-write it is that batch-write, and no
request is sent for the descriptors `post` after `d`. -/
theorem PrepTable_error_is_fatal_and_stops (t : TB) (client : Client)
    (pre : List InitialTableSetup) (d : InitialTableSetup) (post : List InitialTableSetup)
    (name : String) (err : GoError)
    (hpre : (PrepTable t client pre).exit = Exit.returned ())
    (hname : d.derefTableName = some name)
    (hfail :
      (PrepTable t client pre).client.createTable (PrepTable t client pre).client.sent
          d.Table [PrepTable.opt] = Except.error err ∨
      ((∃ out, (PrepTable t client pre).client.createTable
          (PrepTable t client pre).client.sent d.Table [PrepTable.opt] = Except.ok out) ∧
        (PrepTable t client pre).client.batchWriteItem
          ((PrepTable t client pre).client.sent ++ [Spec.createCall d])
          (some (Spec.batchWriteOf name d.InitialData)) [] = Except.error err)) :
    ∃ msg, (PrepTable t client (pre ++ d :: post)).exit = Exit.fatal msg ∧
      (PrepTable t client (pre ++ d :: post)).t.failed = true ∧
      Spec.Contains msg name ∧ Spec.Contains msg err.Error ∧
      (PrepTable t client (pre ++ d :: post)).client.sent =
        (PrepTable t client pre).client.sent ++
          (match (PrepTable t client pre).client.createTable
              (PrepTable t client pre).client.sent d.Table [PrepTable.opt] with
            | Except.error _ => [Spec.createCall d]
            | Except.ok _ => [Spec.createCall d, Spec.writeCall name d]) := by
  unfold PrepTable at *
  rw [loop_append_returned t client pre (d :: post) hpre]
  rcases hfail with hct | ⟨⟨out, hct⟩, hbw⟩
  · have hb := body_create_error (PrepTable.loop t client pre).t
      (PrepTable.loop t client pre).client d name err hname hct
    have hstop : (PrepTable.body (PrepTable.loop t client pre).t
        (PrepTable.loop t client pre).client d).exit ≠ Exit.returned () := by
      rw [hb]
      intro h
      cases h
    rw [loop_cons_stopped _ _ d post hstop, hb, hct]
    exact ⟨_, rfl, rfl, contains_second _ _ _ _, contains_end _ _, rfl⟩
  · have hb := body_write_error (PrepTable.loop t client pre).t
      (PrepTable.loop t client pre).client d name out err hname hct hbw
    have hstop : (PrepTable.body (PrepTable.loop t client pre).t
        (PrepTable.loop t client pre).client d).exit ≠ Exit.returned () := by
      rw [hb]
      intro h
      cases h
    rw [loop_cons_stopped _ _ d post hstop, hb, hct]
    exact ⟨_, rfl, rfl, contains_second _ _ _ _, contains_end _ _, rfl⟩

/-- The error path at a concrete input: on a client whose service becomes unreachable after
two requests, the first descriptor is processed, the create-table request of
the second fails, and `PrepTable` stops fatally after three requests, with
nothing sent for the second or the third descriptor beyond that request. -/
theorem PrepTable_error_is_fatal_and_stops_witness :
    (PrepTable Fixture.t0 Fixture.flakyClient [Fixture.testTable]).exit = Exit.returned () ∧
    ∃ msg, (PrepTable Fixture.t0 Fixture.flakyClient
          ([Fixture.testTable] ++ Fixture.sortableTable :: [Fixture.testTable])).exit =
        Exit.fatal msg ∧
      (PrepTable Fixture.t0 Fixture.flakyClient
          ([Fixture.testTable] ++ Fixture.sortableTable :: [Fixture.testTable])).t.failed =
        true ∧
      Spec.Contains msg "sortable-table" ∧ Spec.Contains msg "connection refused" ∧
      (PrepTable Fixture.t0 Fixture.flakyClient
          ([Fixture.testTable] ++ Fixture.sortableTable :: [Fixture.testTable])).client.sent =
        [Spec.createCall Fixture.testTable, Spec.writeCall "test-table" Fixture.testTable,
         Spec.createCall Fixture.sortableTable] :=
  ⟨rfl,
   PrepTable_error_is_fatal_and_stops Fixture.t0 Fixture.flakyClient [Fixture.testTable]
     Fixture.sortableTable [Fixture.testTable] "sortable-table"
     { Error := "connection refused" } rfl rfl (Or.inl rfl)⟩

/-- C3: when the descriptors before `d` were processed to the end, `d` has the
table name `name` and its create-table request succeeds, `PrepTable` sends for
`d` exactly that create-table request followed by one batch-write request.  The
request map of the batch-write has one key, `name`, mapped to a list `ws` that
is as long as `InitialData` and whose `k`-th element wraps the `k`-th seed row
as its put request with no delete request (so `ws` is empty for no seed row).
Whatever is sent afterwards is sent by the processing of the later descriptors,
which starts only when the batch-write succeeded. -/
theorem PrepTable_one_batch_write_per_created_table (t : TB) (client : Client)
    (pre : List InitialTableSetup) (d : InitialTableSetup) (post : List InitialTableSetup)
    (name : String) (out : CreateTableOutput)
    (hpre : (PrepTable t client pre).exit = Exit.returned ())
    (hname : d.derefTableName = some name)
    (hct : (PrepTable t client pre).client.createTable (PrepTable t client pre).client.sent
      d.Table [PrepTable.opt] = Except.ok out) :
    ∃ ws : List WriteRequest,
      (PrepTable t client (pre ++ [d])).client.sent =
        (PrepTable t client pre).client.sent ++
          [Call.CreateTable d.Table [PrepTable.opt],
           Call.BatchWriteItem
             (some { RequestItems := [(name, ws)], ReturnConsumedCapacity := "",
                     ReturnItemCollectionMetrics := "" }) []] ∧
      ws.length = d.InitialData.length ∧
      (∀ k : Nat, ws[k]? = (d.InitialData[k]?).map
        (fun row => WriteRequest.mk none row)) ∧
      (d.InitialData = [] → ws = []) ∧
      ((PrepTable t client (pre ++ [d])).exit = Exit.returned () →
        PrepTable t client (pre ++ d :: post) =
          PrepTable (PrepTable t client (pre ++ [d])).t
            (PrepTable t client (pre ++ [d])).client post) ∧
      ((PrepTable t client (pre ++ [d])).exit ≠ Exit.returned () →
        PrepTable t client (pre ++ d :: post) = PrepTable t client (pre ++ [d])) := by
  refine ⟨d.InitialData.map Spec.wrap, ?_, by simp, ?_, ?_, ?_, ?_⟩
  · unfold PrepTable at *
    rw [loop_append_returned t client pre [d] hpre]
    cases hbw : (PrepTable.loop t client pre).client.batchWriteItem
        ((PrepTable.loop t client pre).client.sent ++ [Spec.createCall d])
        (some (Spec.batchWriteOf name d.InitialData)) [] with
    | error err =>
      have hb := body_write_error (PrepTable.loop t client pre).t
        (PrepTable.loop t client pre).client d name out err hname hct hbw
      have hstop : (PrepTable.body (PrepTable.loop t client pre).t
          (PrepTable.loop t client pre).client d).exit ≠ Exit.returned () := by
        rw [hb]
        intro h
        cases h
      rw [loop_cons_stopped _ _ d [] hstop, hb]
      rfl
    | ok out2 =>
      have hb := body_ok (PrepTable.loop t client pre).t
        (PrepTable.loop t client pre).client d name out out2 hname hct hbw
      have hret : (PrepTable.body (PrepTable.loop t client pre).t
          (PrepTable.loop t client pre).client d).exit = Exit.returned () := by
        rw [hb]
      rw [loop_cons_returned _ _ d [] hret, hb]
      rfl
  · intro k
    rw [List.getElem?_map]
    rfl
  · intro hnil
    simp [hnil]
  · intro hret
    have happ : pre ++ d :: post = (pre ++ [d]) ++ post := by simp
    unfold PrepTable at *
    rw [happ, loop_append_returned t client (pre ++ [d]) post hret]
  · intro hstop
    have happ : pre ++ d :: post = (pre ++ [d]) ++ post := by simp
    unfold PrepTable at *
    rw [happ, loop_append_stopped t client (pre ++ [d]) post hstop]

/-- Witness of C3: after the descriptor of `TestMinimalSetup`, the descriptor
"sortable table" of `TestSimple` with its three seed rows gives one batch-write
with three write requests. -/
theorem PrepTable_one_batch_write_per_created_table_witness :
    (PrepTable Fixture.t0 Fixture.okClient [Fixture.testTable]).exit = Exit.returned () ∧
    ∃ ws : List WriteRequest,
      (PrepTable Fixture.t0 Fixture.okClient
          ([Fixture.testTable] ++ [Fixture.sortableTable])).client.sent =
        (PrepTable Fixture.t0 Fixture.okClient [Fixture.testTable]).client.sent ++
          [Call.CreateTable Fixture.sortableTable.Table [PrepTable.opt],
           Call.BatchWriteItem
             (some { RequestItems := [("sortable-table", ws)], ReturnConsumedCapacity := "",
                     ReturnItemCollectionMetrics := "" }) []] ∧
      ws.length = 3 :=
  ⟨rfl,
   (PrepTable_one_batch_write_per_created_table Fixture.t0 Fixture.okClient
      [Fixture.testTable] Fixture.sortableTable [] "sortable-table"
      { TableDescription := none } rfl rfl rfl).imp
    (fun _ h => ⟨h.1, h.2.1⟩)⟩

/-- C8: every create-table request `PrepTable` sends carries exactly one
per-call option, and that option, applied to any options value, sets
`RetryMaxAttempts` to 10 and leaves every other field as it was; every
batch-write request it sends carries no per-call option.  This holds for every
client, every list of descriptors and however the call ends. -/
theorem PrepTable_per_call_options (t : TB) (client : Client)
    (input : List InitialTableSetup) :
    ∃ issued, (PrepTable t client input).client.sent = client.sent ++ issued ∧
      ∀ call ∈ issued, Spec.OptionsAsSpecified call := by
  unfold PrepTable
  induction input generalizing t client with
  | nil => exact ⟨[], by simp [PrepTable.loop], by simp⟩
  | cons i rest ih =>
    obtain ⟨first, hfirst, hopts⟩ := body_issued t client i
    by_cases hb : (PrepTable.body t client i).exit = Exit.returned ()
    · rw [loop_cons_returned t client i rest hb]
      obtain ⟨later, hlater, hopts2⟩ :=
        ih (PrepTable.body t client i).t (PrepTable.body t client i).client
      refine ⟨first ++ later, ?_, ?_⟩
      · rw [hlater, hfirst, List.append_assoc]
      · intro call hcall
        rcases List.mem_append.mp hcall with h | h
        · exact hopts call h
        · exact hopts2 call h
    · rw [loop_cons_stopped t client i rest hb]
      exact ⟨first, hfirst, hopts⟩

/-- C10: when every descriptor has a non-nil `Table` whose `TableName` is
non-nil, `PrepTable` never ends in a nil-pointer panic, whatever the client
answers: it either returns, or it ends in a fatal test failure raised through
the test handle. -/
theorem PrepTable_no_nil_dereference (t : TB) (client : Client)
    (input : List InitialTableSetup) (hnamed : Spec.Named input) :
    (PrepTable t client input).exit ≠ Exit.nilDeref ∧
    ((PrepTable t client input).exit = Exit.returned () ∨
      ∃ msg, (PrepTable t client input).exit = Exit.fatal msg ∧
        (PrepTable t client input).t.failed = true) := by
  have key : (PrepTable t client input).exit = Exit.returned () ∨
      ∃ msg, (PrepTable t client input).exit = Exit.fatal msg ∧
        (PrepTable t client input).t.failed = true := by
    unfold PrepTable
    induction input generalizing t client with
    | nil => exact Or.inl rfl
    | cons i rest ih =>
      have hi : i.derefTableName.isSome = true := hnamed i (List.mem_cons_self i rest)
      obtain ⟨name, hname⟩ := Option.isSome_iff_exists.mp hi
      have hrest : Spec.Named rest := fun d hd => hnamed d (List.mem_cons_of_mem i hd)
      by_cases hb : (PrepTable.body t client i).exit = Exit.returned ()
      · rw [loop_cons_returned t client i rest hb]
        exact ih _ _ hrest
      · rw [loop_cons_stopped t client i rest hb]
        exact body_named_exit t client i name hname
  refine ⟨?_, key⟩
  intro hnil
  rcases key with h | ⟨msg, h, _⟩
  · rw [hnil] at h
    cases h
  · rw [hnil] at h
    cases h

/-- Witness of C10: two named descriptors on a client whose service becomes
unreachable after two requests end in a fatal test failure, not in a panic. -/
theorem PrepTable_no_nil_dereference_witness :
    Spec.Named [Fixture.testTable, Fixture.sortableTable] ∧
    (PrepTable Fixture.t0 Fixture.flakyClient
      [Fixture.testTable, Fixture.sortableTable]).exit ≠ Exit.nilDeref :=
  ⟨by intro d hd; simp at hd; rcases hd with h | h <;> subst h <;> rfl,
   (PrepTable_no_nil_dereference Fixture.t0 Fixture.flakyClient
      [Fixture.testTable, Fixture.sortableTable]
      (by intro d hd; simp at hd; rcases hd with h | h <;> subst h <;> rfl)).1⟩

/-! ## Lemmas on `NewDynamoDB` -/

theorem pollHistory_succ (base : List Event) (j : Nat) :
    Spec.pollHistory (base ++ [Event.LoadDefaultConfig]) j = Spec.pollHistory base (j + 1) := by
  simp [Spec.pollHistory, List.replicate_succ]

theorem pollHistory_zero (base : List Event) : Spec.pollHistory base 0 = base := by
  simp [Spec.pollHistory]

theorem op_error (w : World) (resource : Resource) (s : PollState) (err : GoError)
    (h : w.LoadDefaultConfig s.events (NewDynamoDB.loadOptions w resource) = Except.error err) :
    NewDynamoDB.op w resource s =
      ({ s with events := s.events ++ [Event.LoadDefaultConfig] }, some err) := by
  simp [NewDynamoDB.op, h]

theorem op_ok (w : World) (resource : Resource) (s : PollState) (cfg : Config)
    (h : w.LoadDefaultConfig s.events (NewDynamoDB.loadOptions w resource) = Except.ok cfg) :
    NewDynamoDB.op w resource s =
      ({ events := s.events ++ [Event.LoadDefaultConfig, Event.NewFromConfig],
         dynamoClient := some (w.NewFromConfig cfg) }, none) := by
  simp [NewDynamoDB.op, h]

theorem retry_all_fail (w : World) (resource : Resource) (budget : Nat) (s : PollState)
    (hall : ∀ j, j ≤ budget → ∃ err,
      w.LoadDefaultConfig (Spec.pollHistory s.events j) (NewDynamoDB.loadOptions w resource) =
        Except.error err) :
    ∃ err, Pool.Retry (NewDynamoDB.op w resource) budget s =
      ({ s with events := Spec.pollHistory s.events (budget + 1) }, some err) := by
  induction budget generalizing s with
  | zero =>
    obtain ⟨err, h⟩ := hall 0 (Nat.le_refl 0)
    rw [pollHistory_zero] at h
    refine ⟨err, ?_⟩
    rw [Pool.Retry, op_error w resource s err h]
    simp [Spec.pollHistory]
  | succ n ih =>
    obtain ⟨err, h⟩ := hall 0 (Nat.zero_le _)
    rw [pollHistory_zero] at h
    have hnext : ∀ j, j ≤ n → ∃ err,
        w.LoadDefaultConfig
          (Spec.pollHistory
            ({ s with events := s.events ++ [Event.LoadDefaultConfig] } : PollState).events j)
          (NewDynamoDB.loadOptions w resource) = Except.error err := by
      intro j hj
      rw [pollHistory_succ]
      exact hall (j + 1) (Nat.succ_le_succ hj)
    obtain ⟨err2, h2⟩ := ih _ hnext
    refine ⟨err2, ?_⟩
    rw [Pool.Retry, op_error w resource s err h]
    simp only
    rw [h2, pollHistory_succ]

theorem retry_first_success (w : World) (resource : Resource) (budget : Nat) (s : PollState)
    (k : Nat) (cfg : Config) (hk : k ≤ budget)
    (hbefore : ∀ j, j < k → ∃ err,
      w.LoadDefaultConfig (Spec.pollHistory s.events j) (NewDynamoDB.loadOptions w resource) =
        Except.error err)
    (hat : w.LoadDefaultConfig (Spec.pollHistory s.events k)
      (NewDynamoDB.loadOptions w resource) = Except.ok cfg) :
    Pool.Retry (NewDynamoDB.op w resource) budget s =
      ({ events := Spec.pollHistory s.events k ++
           [Event.LoadDefaultConfig, Event.NewFromConfig],
         dynamoClient := some (w.NewFromConfig cfg) }, none) := by
  induction budget generalizing s k with
  | zero =>
    have hk0 : k = 0 := Nat.le_zero.mp hk
    subst hk0
    rw [pollHistory_zero] at hat
    rw [Pool.Retry, op_ok w resource s cfg hat, pollHistory_zero]
  | succ n ih =>
    cases k with
    | zero =>
      rw [pollHistory_zero] at hat
      rw [Pool.Retry, op_ok w resource s cfg hat, pollHistory_zero]
    | succ k =>
      obtain ⟨err, h⟩ := hbefore 0 (Nat.succ_pos k)
      rw [pollHistory_zero] at h
      rw [Pool.Retry, op_error w resource s err h]
      simp only
      have hb2 : ∀ j, j < k → ∃ err,
          w.LoadDefaultConfig
            (Spec.pollHistory
              ({ s with events := s.events ++ [Event.LoadDefaultConfig] } : PollState).events j)
            (NewDynamoDB.loadOptions w resource) = Except.error err := by
        intro j hj
        rw [pollHistory_succ]
        exact hbefore (j + 1) (Nat.succ_lt_succ hj)
      have hat2 : w.LoadDefaultConfig
          (Spec.pollHistory
            ({ s with events := s.events ++ [Event.LoadDefaultConfig] } : PollState).events k)
          (NewDynamoDB.loadOptions w resource) = Except.ok cfg := by
        rw [pollHistory_succ]
        exact hat
      rw [ih _ k (Nat.le_of_succ_le_succ hk) hb2 hat2, pollHistory_succ]

theorem poll_fails_or_succeeds (w : World) (resource : Resource) (base : List Event)
    (budget : Nat) :
    (∀ j, j ≤ budget → ∃ err,
      w.LoadDefaultConfig (Spec.pollHistory base j) (NewDynamoDB.loadOptions w resource) =
        Except.error err) ∨
    ∃ k cfg, k ≤ budget ∧
      (∀ j, j < k → ∃ err,
        w.LoadDefaultConfig (Spec.pollHistory base j) (NewDynamoDB.loadOptions w resource) =
          Except.error err) ∧
      w.LoadDefaultConfig (Spec.pollHistory base k) (NewDynamoDB.loadOptions w resource) =
        Except.ok cfg := by
  induction budget with
  | zero =>
    cases h : w.LoadDefaultConfig (Spec.pollHistory base 0)
        (NewDynamoDB.loadOptions w resource) with
    | error err =>
      left
      intro j hj
      have hj0 : j = 0 := Nat.le_zero.mp hj
      subst hj0
      exact ⟨err, h⟩
    | ok cfg =>
      right
      exact ⟨0, cfg, Nat.le_refl 0, fun j hj => absurd hj (Nat.not_lt_zero j), h⟩
  | succ n ih =>
    rcases ih with hall | ⟨k, cfg, hk, hbefore, hat⟩
    · cases h : w.LoadDefaultConfig (Spec.pollHistory base (n + 1))
          (NewDynamoDB.loadOptions w resource) with
      | error err =>
        left
        intro j hj
        rcases Nat.lt_or_ge j (n + 1) with hlt | hge
        · exact hall j (Nat.le_of_lt_succ hlt)
        · have hjn : j = n + 1 := Nat.le_antisymm hj hge
          subst hjn
          exact ⟨err, h⟩
      | ok cfg =>
        right
        exact ⟨n + 1, cfg, Nat.le_refl _, fun j hj => hall j (Nat.le_of_lt_succ hj), h⟩
    · right
      exact ⟨k, cfg, Nat.le_succ_of_le hk, hbefore, hat⟩

theorem new_connect_fails (w : World) (t : TB) (events : List Event) (err : GoError)
    (h : w.NewPool events "" = Except.error err) :
    NewDynamoDB w t events =
      { t := t.Fatalf ("Could not connect to docker: " ++ err.Error)
        events := events ++ [Event.NewPool ""]
        exit := Exit.fatal ("Could not connect to docker: " ++ err.Error) } := by
  simp [NewDynamoDB, h]

theorem new_start_fails (w : World) (t : TB) (events : List Event) (pool : Pool)
    (err : GoError) (h : w.NewPool events "" = Except.ok pool)
    (hrun : w.RunWithOptions (events ++ [Event.NewPool ""]) pool (NewDynamoDB.runOpt w) =
      Except.error err) :
    NewDynamoDB w t events =
      { t := t.Fatalf ("Could not start DynamoDB Local: " ++ err.Error)
        events := events ++ [Event.NewPool "", Event.RunWithOptions pool (NewDynamoDB.runOpt w)]
        exit := Exit.fatal ("Could not start DynamoDB Local: " ++ err.Error) } := by
  simp [NewDynamoDB, h, hrun]

theorem new_poll_fails (w : World) (t : TB) (events : List Event) (pool : Pool)
    (resource : Resource) (h : w.NewPool events "" = Except.ok pool)
    (hrun : w.RunWithOptions (events ++ [Event.NewPool ""]) pool (NewDynamoDB.runOpt w) =
      Except.ok resource)
    (hall : ∀ j, j ≤ w.retryBudget → ∃ err,
      w.LoadDefaultConfig
        (Spec.pollHistory
          (events ++ [Event.NewPool "", Event.RunWithOptions pool (NewDynamoDB.runOpt w)]) j)
        (NewDynamoDB.loadOptions w resource) = Except.error err) :
    ∃ msg, (NewDynamoDB w t events).exit = Exit.fatal msg ∧
      (NewDynamoDB w t events).t.failed = true ∧
      (NewDynamoDB w t events).events =
        Spec.pollHistory
          (events ++ [Event.NewPool "", Event.RunWithOptions pool (NewDynamoDB.runOpt w)])
          (w.retryBudget + 1) := by
  obtain ⟨err, hretry⟩ := retry_all_fail w resource w.retryBudget
    { events := events ++ [Event.NewPool "", Event.RunWithOptions pool (NewDynamoDB.runOpt w)]
      dynamoClient := none } hall
  simp only at hretry
  refine ⟨"Could not connect to the Docker instance of DynamoDB Local: " ++ err.Error, ?_⟩
  simp [NewDynamoDB, h, hrun, hretry, TB.Fatalf]

theorem new_success (w : World) (t : TB) (events : List Event) (pool : Pool)
    (resource : Resource) (k : Nat) (cfg : Config)
    (h : Spec.PollSucceedsAt w events pool resource k cfg) :
    NewDynamoDB w t events =
      { t := t.Logf ("Using host:port of '" ++ w.GetHostPort resource "8000/tcp" ++ "'")
        events :=
          Spec.pollHistory
            (events ++ [Event.NewPool "", Event.RunWithOptions pool (NewDynamoDB.runOpt w)]) k
            ++ [Event.LoadDefaultConfig, Event.NewFromConfig]
        exit := Exit.returned
          (some (w.NewFromConfig cfg), { pool := pool, resource := resource }) } := by
  obtain ⟨hpool, hrun, hk, hbefore, hat⟩ := h
  have hretry := retry_first_success w resource w.retryBudget
    { events := events ++ [Event.NewPool "", Event.RunWithOptions pool (NewDynamoDB.runOpt w)]
      dynamoClient := none } k cfg hk hbefore hat
  simp only at hretry
  simp [NewDynamoDB, hpool, hrun, hretry]

theorem new_cases (w : World) (events : List Event) :
    (Spec.ConnectFails w events ∨ Spec.StartFails w events ∨ Spec.PollFails w events) ∨
    ∃ pool resource k cfg, Spec.PollSucceedsAt w events pool resource k cfg := by
  cases hpool : w.NewPool events "" with
  | error err => exact Or.inl (Or.inl ⟨err, hpool⟩)
  | ok pool =>
    cases hrun : w.RunWithOptions (events ++ [Event.NewPool ""]) pool
        (NewDynamoDB.runOpt w) with
    | error err => exact Or.inl (Or.inr (Or.inl ⟨pool, err, hpool, hrun⟩))
    | ok resource =>
      rcases poll_fails_or_succeeds w resource
          (events ++ [Event.NewPool "", Event.RunWithOptions pool (NewDynamoDB.runOpt w)])
          w.retryBudget with hall | ⟨k, cfg, hk, hbefore, hat⟩
      · exact Or.inl (Or.inr (Or.inr ⟨pool, resource, hpool, hrun, hall⟩))
      · exact Or.inr ⟨pool, resource, k, cfg, hpool, hrun, hk, hbefore, hat⟩

theorem new_fatal_of_step_fails (w : World) (t : TB) (events : List Event)
    (h : Spec.ConnectFails w events ∨ Spec.StartFails w events ∨ Spec.PollFails w events) :
    ∃ msg, (NewDynamoDB w t events).exit = Exit.fatal msg ∧
      (NewDynamoDB w t events).t.failed = true := by
  rcases h with ⟨err, h⟩ | ⟨pool, err, h, hrun⟩ | ⟨pool, resource, h, hrun, hall⟩
  · rw [new_connect_fails w t events err h]
    exact ⟨_, rfl, rfl⟩
  · rw [new_start_fails w t events pool err h hrun]
    exact ⟨_, rfl, rfl⟩
  · obtain ⟨msg, h1, h2, _⟩ := new_poll_fails w t events pool resource h hrun hall
    exact ⟨msg, h1, h2⟩

theorem new_returned_of_success (w : World) (t : TB) (events : List Event)
    (r : Option Client × Cleanup) (h : (NewDynamoDB w t events).exit = Exit.returned r) :
    ∃ pool resource k cfg, Spec.PollSucceedsAt w events pool resource k cfg ∧
      r = (some (w.NewFromConfig cfg), { pool := pool, resource := resource }) := by
  rcases new_cases w events with hfail | ⟨pool, resource, k, cfg, hs⟩
  · obtain ⟨msg, hmsg, _⟩ := new_fatal_of_step_fails w t events hfail
    rw [hmsg] at h
    cases h
  · refine ⟨pool, resource, k, cfg, hs, ?_⟩
    rw [new_success w t events pool resource k cfg hs] at h
    simp only [Exit.returned.injEq] at h
    exact h.symm

/-! ## The claims on `NewDynamoDB` -/

/-- C4: `NewDynamoDB` fails the test fatally exactly when connecting to the
daemon fails, or starting the container fails, or the polling fails.  After a
failed connection nothing else is requested; after a failed start no poll
attempt is made.  When the three steps succeed it returns, with the test not
failed by it, the client built from the configuration of the first successful
poll attempt, together with the cleanup closure; and when no step fails there
is such a successful attempt. -/
theorem NewDynamoDB_fatal_iff_a_step_fails (w : World) (t : TB) (events : List Event) :
    ((∃ msg, (NewDynamoDB w t events).exit = Exit.fatal msg ∧
        (NewDynamoDB w t events).t.failed = true) ↔
      (Spec.ConnectFails w events ∨ Spec.StartFails w events ∨ Spec.PollFails w events)) ∧
    (Spec.ConnectFails w events →
      (NewDynamoDB w t events).events = events ++ [Event.NewPool ""]) ∧
    (∀ pool err, w.NewPool events "" = Except.ok pool →
      w.RunWithOptions (events ++ [Event.NewPool ""]) pool (NewDynamoDB.runOpt w) =
        Except.error err →
      (NewDynamoDB w t events).events =
        events ++ [Event.NewPool "", Event.RunWithOptions pool (NewDynamoDB.runOpt w)]) ∧
    (∀ pool resource k cfg, Spec.PollSucceedsAt w events pool resource k cfg →
      (NewDynamoDB w t events).exit =
        Exit.returned (some (w.NewFromConfig cfg), { pool := pool, resource := resource }) ∧
      (NewDynamoDB w t events).t.failed = t.failed ∧
      (NewDynamoDB w t events).events =
        Spec.pollHistory
          (events ++ [Event.NewPool "", Event.RunWithOptions pool (NewDynamoDB.runOpt w)]) k
          ++ [Event.LoadDefaultConfig, Event.NewFromConfig]) ∧
    (¬ (Spec.ConnectFails w events ∨ Spec.StartFails w events ∨ Spec.PollFails w events) →
      ∃ pool resource k cfg, Spec.PollSucceedsAt w events pool resource k cfg) := by
  refine ⟨⟨?_, new_fatal_of_step_fails w t events⟩, ?_, ?_, ?_, ?_⟩
  · rintro ⟨msg, hmsg, _⟩
    rcases new_cases w events with hfail | ⟨pool, resource, k, cfg, hs⟩
    · exact hfail
    · rw [new_success w t events pool resource k cfg hs] at hmsg
      cases hmsg
  · rintro ⟨err, h⟩
    rw [new_connect_fails w t events err h]
  · intro pool err h hrun
    rw [new_start_fails w t events pool err h hrun]
  · intro pool resource k cfg hs
    rw [new_success w t events pool resource k cfg hs]
    exact ⟨rfl, rfl, rfl⟩
  · intro hno
    rcases new_cases w events with hfail | hs
    · exact absurd hfail hno
    · exact hs

/-- Witness of C4: when loading the configuration fails twice and then
succeeds, `NewDynamoDB` returns the client of the third attempt. -/
theorem NewDynamoDB_fatal_iff_a_step_fails_witness :
    (NewDynamoDB Fixture.slowStart Fixture.t0 []).exit =
      Exit.returned (some Fixture.okClient,
        { pool := { Client := "unix:///var/run/docker.sock" },
          resource := { Container := "c0" } }) ∧
    (NewDynamoDB Fixture.slowStart Fixture.t0 []).t.failed = false :=
  ⟨((NewDynamoDB_fatal_iff_a_step_fails Fixture.slowStart Fixture.t0 []).2.2.2.1
      { Client := "unix:///var/run/docker.sock" } { Container := "c0" } 2
      { Region := "us-east-1", EndpointResolverWithOptions := none, Credentials := none }
      ⟨rfl, rfl, by decide,
        fun j hj => by
          have hj2 : j = 0 ∨ j = 1 := by omega
          rcases hj2 with h | h <;> subst h <;> exact ⟨_, rfl⟩,
        rfl⟩).1,
   ((NewDynamoDB_fatal_iff_a_step_fails Fixture.slowStart Fixture.t0 []).2.2.2.1
      { Client := "unix:///var/run/docker.sock" } { Container := "c0" } 2
      { Region := "us-east-1", EndpointResolverWithOptions := none, Credentials := none }
      ⟨rfl, rfl, by decide,
        fun j hj => by
          have hj2 : j = 0 ∨ j = 1 := by omega
          rcases hj2 with h | h <;> subst h <;> exact ⟨_, rfl⟩,
        rfl⟩).2.1⟩

/-- C5: when `NewDynamoDB` returns, it has made no purge request itself, and
the cleanup closure it returns holds the pool it connected and the container it
started.  Every call of the closure makes exactly one request, a purge of that
container through that pool, and ends in a fatal test failure exactly when the
purge returns an error; otherwise it returns and leaves the test handle as it
was. -/
theorem NewDynamoDB_cleanup_purges_own_container (w : World) (t : TB)
    (events : List Event) (client : Option Client) (cleanup : Cleanup)
    (hret : (NewDynamoDB w t events).exit = Exit.returned (client, cleanup)) :
    (∃ issued, (NewDynamoDB w t events).events = events ++ issued ∧ Spec.NoPurge issued) ∧
    w.NewPool events "" = Except.ok cleanup.pool ∧
    w.RunWithOptions (events ++ [Event.NewPool ""]) cleanup.pool (NewDynamoDB.runOpt w) =
      Except.ok cleanup.resource ∧
    ∀ (t2 : TB) (events2 : List Event),
      (cleanup.call w t2 events2).events =
        events2 ++ [Event.Purge cleanup.pool cleanup.resource] ∧
      ((∃ msg, (cleanup.call w t2 events2).exit = Exit.fatal msg ∧
          (cleanup.call w t2 events2).t.failed = true) ↔
        ∃ err, w.Purge events2 cleanup.pool cleanup.resource = some err) ∧
      (w.Purge events2 cleanup.pool cleanup.resource = none →
        (cleanup.call w t2 events2).exit = Exit.returned () ∧
        (cleanup.call w t2 events2).t = t2) := by
  obtain ⟨pool, resource, k, cfg, hs, hr⟩ := new_returned_of_success w t events _ hret
  have hc : cleanup = { pool := pool, resource := resource } := (Prod.mk.inj hr).2
  subst hc
  refine ⟨⟨[Event.NewPool "", Event.RunWithOptions pool (NewDynamoDB.runOpt w)] ++
      List.replicate k Event.LoadDefaultConfig ++
      [Event.LoadDefaultConfig, Event.NewFromConfig], ?_, ?_⟩, hs.1, hs.2.1, ?_⟩
  · rw [new_success w t events pool resource k cfg hs]
    simp [Spec.pollHistory]
  · intro p r hmem
    simp only [List.mem_append, List.mem_cons, List.mem_singleton, List.not_mem_nil,
      or_false, List.mem_replicate] at hmem
    rcases hmem with ((h | h) | ⟨_, h⟩) | (h | h) <;> cases h
  · intro t2 events2
    cases hp : w.Purge events2 pool resource with
    | none =>
      refine ⟨by simp [Cleanup.call, hp], ?_, ?_⟩
      · constructor
        · rintro ⟨msg, hmsg, _⟩
          simp [Cleanup.call, hp] at hmsg
        · rintro ⟨err, herr⟩
          cases herr
      · intro _
        simp [Cleanup.call, hp]
    | some err =>
      refine ⟨by simp [Cleanup.call, hp], ?_, ?_⟩
      · constructor
        · intro _
          exact ⟨err, rfl⟩
        · intro _
          exact ⟨"Could not purge DynamoDB: " ++ err.Error, by simp [Cleanup.call, hp],
            by simp [Cleanup.call, hp, TB.Fatalf]⟩
      · intro h
        cases h

/-- Witness of C5: in an environment where a second purge of a container fails,
the closure returned by `NewDynamoDB` purges container `c0` on its first call
and returns. -/
theorem NewDynamoDB_cleanup_purges_own_container_witness :
    (NewDynamoDB Fixture.slowStart Fixture.t0 []).exit =
      Exit.returned (some Fixture.okClient,
        { pool := { Client := "unix:///var/run/docker.sock" },
          resource := { Container := "c0" } }) ∧
    (Cleanup.call Fixture.slowStart
        { pool := { Client := "unix:///var/run/docker.sock" },
          resource := { Container := "c0" } }
        Fixture.t0 (NewDynamoDB Fixture.slowStart Fixture.t0 []).events).events =
      (NewDynamoDB Fixture.slowStart Fixture.t0 []).events ++
        [Event.Purge { Client := "unix:///var/run/docker.sock" } { Container := "c0" }] :=
  ⟨rfl,
   ((NewDynamoDB_cleanup_purges_own_container Fixture.slowStart Fixture.t0 []
      (some Fixture.okClient)
      { pool := { Client := "unix:///var/run/docker.sock" },
        resource := { Container := "c0" } } rfl).2.2.2
      Fixture.t0 (NewDynamoDB Fixture.slowStart Fixture.t0 []).events).1⟩

/-- C6, the behaviour of the code: the closure handed to `pool.Retry` succeeds
whenever loading the configuration succeeds, and it sends nothing through the
client it builds.  In an environment whose emulator accepts no connection,
`NewDynamoDB` therefore returns a client after a single poll attempt, without
failing the test; nothing was ever sent through that client, and its first
create-table request is refused. -/
theorem NewDynamoDB_returns_client_without_connecting :
    (∀ (w : World) (resource : Resource) (s : PollState) (cfg : Config),
      w.LoadDefaultConfig s.events (NewDynamoDB.loadOptions w resource) = Except.ok cfg →
      (NewDynamoDB.op w resource s).2 = none ∧
      (NewDynamoDB.op w resource s).1.dynamoClient = some (w.NewFromConfig cfg)) ∧
    (NewDynamoDB Fixture.notListening Fixture.t0 []).exit =
      Exit.returned (some Fixture.refusedClient,
        { pool := { Client := "unix:///var/run/docker.sock" },
          resource := { Container := "c0" } }) ∧
    (NewDynamoDB Fixture.notListening Fixture.t0 []).t.failed = false ∧
    (NewDynamoDB Fixture.notListening Fixture.t0 []).events =
      [Event.NewPool "",
       Event.RunWithOptions { Client := "unix:///var/run/docker.sock" }
         (NewDynamoDB.runOpt Fixture.notListening),
       Event.LoadDefaultConfig, Event.NewFromConfig] ∧
    Fixture.refusedClient.sent = [] ∧
    (PrepTable Fixture.t0 Fixture.refusedClient [Fixture.testTable]).exit =
      Exit.fatal "Could not create table 'test-table': connection refused" := by
  refine ⟨?_, rfl, rfl, rfl, rfl, ?_⟩
  · intro w resource s cfg h
    rw [op_ok w resource s cfg h]
    exact ⟨rfl, rfl⟩
  · have hb := body_create_error Fixture.t0 Fixture.refusedClient Fixture.testTable
      "test-table" { Error := "connection refused" } rfl rfl
    have hstop : (PrepTable.body Fixture.t0 Fixture.refusedClient Fixture.testTable).exit ≠
        Exit.returned () := by
      rw [hb]
      intro h
      cases h
    unfold PrepTable
    rw [loop_cons_stopped _ _ _ _ hstop, hb]
    simp only [Exit.fatal.injEq]
    decide

end Dynamotest
